import Mathlib

/-
Verification of the work-item decomposition engine of the task-genie
repository (src/backend/agents/workItemAgent).  The definitions below are a
shallow embedding of `services/bedrock_service.py` and
`tools/bedrock_tools.py`; external collaborators (the Bedrock runtime, the
knowledge-base retrieval client, the Azure image fetcher) are passed in as
explicit oracle arguments.  Python standard-library behaviour that the code
relies on (`json.loads`, `json.dumps`, `base64.b64decode`, `str.find`,
`str.rfind`, slicing) is embedded as executable Lean functions.  Python `str`
values are modelled as Lean `String` (both are sequences of unicode code
points, and all slicing in the source is by code point).
-/

/-! ### JSON values

A parsed JSON value, as produced by Python `json.loads`.  Numbers keep their
validated lexeme: the source never computes with a parsed number, so the
float value is irrelevant (and float rounding is deliberately not modelled).
Objects keep their members in parse order; duplicate keys are resolved on
lookup (last occurrence wins), matching Python dict construction. -/
inductive Json where
  | null
  | bool (b : Bool)
  | num (lexeme : String)
  | str (s : String)
  | arr (elems : List Json)
  | obj (members : List (String × Json))

/-- Membership test for a key in a parsed JSON object, mirroring Python
`key in parsed_dict`.  Non-objects contain no keys. -/
def Json.objContains (j : Json) (key : String) : Bool :=
  match j with
  | .obj ms => ms.any (fun p => p.1 == key)
  | _ => false

/-- Lookup of a key in a parsed JSON object, mirroring Python
`parsed_dict.get(key)` / `parsed_dict[key]`: the last binding of a duplicated
key wins, as in Python dict construction. -/
def Json.objGet (j : Json) (key : String) : Option Json :=
  match j with
  | .obj ms => (ms.reverse.find? (fun p => p.1 == key)).map Prod.snd
  | _ => none

/-- Whether the digits of a JSON number lexeme before any exponent are all
zero, i.e. the number is mathematically zero.  (Float underflow, where a tiny
nonzero literal rounds to 0.0, is not modelled; the source never feeds parsed
numbers to a truthiness test anyway, since `_safe_json_parse` only ever
returns objects.) -/
def numLexemeIsZero (lexeme : String) : Bool :=
  (lexeme.data.takeWhile (fun c => c != 'e' && c != 'E')).all
    (fun c => c == '0' || c == '.' || c == '-' || c == '+')

/-- Python truthiness of a parsed JSON value: `None`, `False`, `0`, empty
string, empty list and empty dict are falsy. -/
def jsonPyFalsy : Json → Bool
  | .null => true
  | .bool b => !b
  | .num lexeme => numLexemeIsZero lexeme
  | .str s => s.isEmpty
  | .arr es => es.isEmpty
  | .obj ms => ms.isEmpty

/-- Python `len()` applied to a parsed JSON value: defined for strings,
lists and dicts (for a dict, the number of distinct keys); `none` models the
`TypeError` raised on other values. -/
def jsonPyLen : Json → Option Nat
  | .str s => some s.length
  | .arr es => some es.length
  | .obj ms => some (ms.map Prod.fst).dedup.length
  | _ => none

/-! ### Embedding of Python `json.loads` (strict defaults)

Fuel-based recursive-descent parser for RFC 8259 JSON plus the CPython
extensions `NaN`, `Infinity` and `-Infinity`.  Matches CPython's strict
decoder: raw control characters inside strings are rejected, only the
standard escapes are accepted, leading zeros in numbers are rejected, and
trailing data after the top-level value is rejected.  Lone surrogate escapes
(which CPython tolerates) are rejected here, since a Lean `Char` cannot hold
a surrogate code point; no input in this development contains them. -/

def jsonWsChar (c : Char) : Bool :=
  c == ' ' || c == '\t' || c == '\n' || c == '\r'

def skipJsonWs : List Char → List Char
  | [] => []
  | c :: rest => if jsonWsChar c then skipJsonWs rest else c :: rest

def hexDigitVal (c : Char) : Option Nat :=
  if '0' ≤ c ∧ c ≤ '9' then some (c.toNat - '0'.toNat)
  else if 'a' ≤ c ∧ c ≤ 'f' then some (c.toNat - 'a'.toNat + 10)
  else if 'A' ≤ c ∧ c ≤ 'F' then some (c.toNat - 'A'.toNat + 10)
  else none

/-- Decode the four hex digits of a `\u` escape (positioned just after the
`u`), combining a high surrogate with a following `\uXXXX` low surrogate. -/
def decodeUnicodeEscape (l : List Char) : Option (Char × List Char) :=
  match l with
  | a :: b :: c :: d :: rest =>
    match hexDigitVal a, hexDigitVal b, hexDigitVal c, hexDigitVal d with
    | some ha, some hb, some hc, some hd =>
      let n := ((ha * 16 + hb) * 16 + hc) * 16 + hd
      if 0xD800 ≤ n ∧ n ≤ 0xDBFF then
        match rest with
        | '\\' :: 'u' :: a2 :: b2 :: c2 :: d2 :: rest2 =>
          (match hexDigitVal a2, hexDigitVal b2, hexDigitVal c2, hexDigitVal d2 with
           | some ha2, some hb2, some hc2, some hd2 =>
             let m := ((ha2 * 16 + hb2) * 16 + hc2) * 16 + hd2
             if 0xDC00 ≤ m ∧ m ≤ 0xDFFF then
               some (Char.ofNat (0x10000 + (n - 0xD800) * 0x400 + (m - 0xDC00)), rest2)
             else none
           | _, _, _, _ => none)
        | _ => none
      else if 0xDC00 ≤ n ∧ n ≤ 0xDFFF then none
      else some (Char.ofNat n, rest)
    | _, _, _, _ => none
  | _ => none

/-- The single-character string escapes accepted by `json.loads`. -/
def jsonSimpleEscape (c : Char) : Option Char :=
  if c = '"' then some '"'
  else if c = '\\' then some '\\'
  else if c = '/' then some '/'
  else if c = 'b' then some '\x08'
  else if c = 'f' then some '\x0C'
  else if c = 'n' then some '\n'
  else if c = 'r' then some '\r'
  else if c = 't' then some '\t'
  else none

/-- Parse the body of a JSON string literal (positioned just after the
opening quote); returns the decoded characters and the input after the
closing quote. -/
def parseJsonStringBody : Nat → List Char → Option (List Char × List Char)
  | 0, _ => none
  | _ + 1, [] => none
  | fuel + 1, c :: rest =>
    if c = '"' then some ([], rest)
    else if c = '\\' then
      match rest with
      | 'u' :: rest2 =>
        match decodeUnicodeEscape rest2 with
        | some (ch, rest3) =>
          (parseJsonStringBody fuel rest3).map (fun p => (ch :: p.1, p.2))
        | none => none
      | e :: rest2 =>
        match jsonSimpleEscape e with
        | some ch => (parseJsonStringBody fuel rest2).map (fun p => (ch :: p.1, p.2))
        | none => none
      | [] => none
    else if c.toNat < 0x20 then none
    else (parseJsonStringBody fuel rest).map (fun p => (c :: p.1, p.2))

def takeJsonDigits (l : List Char) : List Char × List Char :=
  (l.takeWhile Char.isDigit, l.dropWhile Char.isDigit)

/-- Parse an optional exponent part, appending it to the lexeme accumulated
so far. -/
def parseJsonExpPart (acc : List Char) (l : List Char) : Option (List Char × List Char) :=
  match l with
  | [] => some (acc, l)
  | e :: rest =>
    if e = 'e' ∨ e = 'E' then
      let signAndRest : List Char × List Char :=
        match rest with
        | '+' :: r => (['+'], r)
        | '-' :: r => (['-'], r)
        | _ => ([], rest)
      match signAndRest.2 with
      | d :: _ =>
        if d.isDigit then
          let digitsAndRest := takeJsonDigits signAndRest.2
          some (acc ++ e :: signAndRest.1 ++ digitsAndRest.1, digitsAndRest.2)
        else none
      | [] => none
    else some (acc, l)

/-- Parse an optional fraction part followed by an optional exponent part. -/
def parseJsonFracExpPart (acc : List Char) (l : List Char) : Option (List Char × List Char) :=
  match l with
  | '.' :: rest =>
    (match rest with
     | d :: _ =>
       if d.isDigit then
         let digitsAndRest := takeJsonDigits rest
         parseJsonExpPart (acc ++ '.' :: digitsAndRest.1) digitsAndRest.2
       else none
     | [] => none)
  | _ => parseJsonExpPart acc l

/-- Parse a JSON number lexeme per the RFC 8259 grammar (leading zeros
rejected, as in CPython). -/
def parseJsonNumber (l : List Char) : Option (List Char × List Char) :=
  let signAndRest : List Char × List Char :=
    match l with
    | '-' :: r => (['-'], r)
    | _ => ([], l)
  match signAndRest.2 with
  | [] => none
  | c :: rest =>
    if c = '0' then parseJsonFracExpPart (signAndRest.1 ++ [c]) rest
    else if c.isDigit then
      let digitsAndRest := takeJsonDigits rest
      parseJsonFracExpPart (signAndRest.1 ++ c :: digitsAndRest.1) digitsAndRest.2
    else none

mutual

/-- Parse one JSON value after skipping leading whitespace; returns the value
and the remaining input. -/
def parseJsonValue : Nat → List Char → Option (Json × List Char)
  | 0, _ => none
  | fuel + 1, l =>
    match skipJsonWs l with
    | '"' :: rest =>
      (parseJsonStringBody fuel rest).map (fun p => (Json.str (String.mk p.1), p.2))
    | '\x7b' :: rest => parseJsonObjectBody fuel rest
    | '[' :: rest => parseJsonArrayBody fuel rest
    | 't' :: 'r' :: 'u' :: 'e' :: rest => some (Json.bool true, rest)
    | 'f' :: 'a' :: 'l' :: 's' :: 'e' :: rest => some (Json.bool false, rest)
    | 'n' :: 'u' :: 'l' :: 'l' :: rest => some (Json.null, rest)
    | 'N' :: 'a' :: 'N' :: rest => some (Json.num "NaN", rest)
    | 'I' :: 'n' :: 'f' :: 'i' :: 'n' :: 'i' :: 't' :: 'y' :: rest =>
      some (Json.num "Infinity", rest)
    | '-' :: 'I' :: 'n' :: 'f' :: 'i' :: 'n' :: 'i' :: 't' :: 'y' :: rest =>
      some (Json.num "-Infinity", rest)
    | l2 => (parseJsonNumber l2).map (fun p => (Json.num (String.mk p.1), p.2))

/-- Parse an object body (positioned just after the opening brace). -/
def parseJsonObjectBody : Nat → List Char → Option (Json × List Char)
  | 0, _ => none
  | fuel + 1, l =>
    match skipJsonWs l with
    | '\x7d' :: rest => some (Json.obj [], rest)
    | l2 => parseJsonMembers fuel l2 []

/-- Parse one-or-more comma-separated `"key": value` members; the empty
object is handled in `parseJsonObjectBody`, so trailing commas are
rejected. -/
def parseJsonMembers : Nat → List Char → List (String × Json) → Option (Json × List Char)
  | 0, _, _ => none
  | fuel + 1, l, acc =>
    match skipJsonWs l with
    | '"' :: rest =>
      (match parseJsonStringBody fuel rest with
       | none => none
       | some (keyChars, rest2) =>
         match skipJsonWs rest2 with
         | ':' :: rest3 =>
           (match parseJsonValue fuel rest3 with
            | none => none
            | some (v, rest4) =>
              match skipJsonWs rest4 with
              | ',' :: rest5 => parseJsonMembers fuel rest5 (acc ++ [(String.mk keyChars, v)])
              | '\x7d' :: rest5 => some (Json.obj (acc ++ [(String.mk keyChars, v)]), rest5)
              | _ => none)
         | _ => none)
    | _ => none

/-- Parse an array body (positioned just after the opening bracket). -/
def parseJsonArrayBody : Nat → List Char → Option (Json × List Char)
  | 0, _ => none
  | fuel + 1, l =>
    match skipJsonWs l with
    | ']' :: rest => some (Json.arr [], rest)
    | l2 => parseJsonElems fuel l2 []

/-- Parse one-or-more comma-separated array elements; the empty array is
handled in `parseJsonArrayBody`, so trailing commas are rejected. -/
def parseJsonElems : Nat → List Char → List Json → Option (Json × List Char)
  | 0, _, _ => none
  | fuel + 1, l, acc =>
    match parseJsonValue fuel l with
    | none => none
    | some (v, rest) =>
      match skipJsonWs rest with
      | ',' :: rest2 => parseJsonElems fuel rest2 (acc ++ [v])
      | ']' :: rest2 => some (Json.arr (acc ++ [v]), rest2)
      | _ => none

end

/-- Embedding of Python `json.loads` with its strict defaults: parse one JSON
value and reject any trailing non-whitespace data.  The fuel
`3 * length + 3` dominates the recursion depth, which consumes at least one
character per three nested calls. -/
def json_loads (s : String) : Option Json :=
  match parseJsonValue (3 * s.data.length + 3) s.data with
  | some (v, rest) => if (skipJsonWs rest).isEmpty then some v else none
  | none => none

/-! ### Embedding of Python `str.find`, `str.rfind` and slicing -/

/-- Index-tracking scan underlying `pyFind`: returns `n + i` for the first
occurrence at offset `i`, scanning left to right. -/
def pyFindAux (c : Char) : List Char → Nat → Option Nat
  | [], _ => none
  | x :: xs, n => if x = c then some n else pyFindAux c xs (n + 1)

/-- Embedding of Python `s.find(c)` for a single-character needle, except
that "not found" is `none` rather than `-1` (the source only ever compares
the result with `-1`). -/
def pyFind (s : String) (c : Char) : Option Nat :=
  pyFindAux c s.data 0

/-- Accumulator scan underlying `pyRFind`: remembers the most recent
occurrence seen so far. -/
def pyRFindAux (c : Char) : List Char → Nat → Option Nat → Option Nat
  | [], _, acc => acc
  | x :: xs, n, acc => pyRFindAux c xs (n + 1) (if x = c then some n else acc)

/-- Embedding of Python `s.rfind(c)` for a single-character needle, with
"not found" as `none` rather than `-1`. -/
def pyRFind (s : String) (c : Char) : Option Nat :=
  pyRFindAux c s.data 0 none

/-- Embedding of the Python slice `s[a:b]` (by code points, like `str`). -/
def pySlice (s : String) (a b : Nat) : String :=
  String.mk ((s.data.drop a).take (b - a))

/-- Embedding of the Python slice `s[:n]`. -/
def pySliceTo (s : String) (n : Nat) : String :=
  String.mk (s.data.take n)

/-- Embedding of `BedrockService._safe_json_parse` (bedrock_service.py lines
994-1008): find the first opening brace and the last closing brace, fail when
either is missing or the last closing brace does not lie strictly after the
first opening brace, and otherwise run `json.loads` on the enclosed
substring. -/
def safe_json_parse (input_str : String) : Option Json :=
  match pyFind input_str '\x7b', pyRFind input_str '\x7d' with
  | some start, some «end» =>
    if «end» ≤ start then none
    else json_loads (pySlice input_str start («end» + 1))
  | _, _ => none

/-- The index `i` holds the first occurrence of `c` in `l`. -/
def isFirstOcc (l : List Char) (c : Char) (i : Nat) : Prop :=
  l[i]? = some c ∧ ∀ k < i, l[k]? ≠ some c

/-- The index `j` holds the last occurrence of `c` in `l`. -/
def isLastOcc (l : List Char) (c : Char) (j : Nat) : Prop :=
  l[j]? = some c ∧ ∀ k < l.length, j < k → l[k]? ≠ some c

/-! ### Data model

Work items arrive as Python dicts; the source reads every field with
`work_item.get(field, "")` or tests it for truthiness, so a missing field and
an empty string behave identically and are both modelled as `""` (likewise a
missing image/tag list and an empty one). -/

/-- An image reference attached to a work item (`work_item["images"][i]`). -/
structure ImageRef where
  url : String := ""
  alt : String := ""

/-- The work-item dictionary fields the decomposition engine reads. -/
structure WorkItem where
  workItemType : String := ""
  processTemplate : String := ""
  title : String := ""
  description : String := ""
  acceptanceCriteria : String := ""
  successCriteria : String := ""
  areaPath : String := ""
  businessUnit : String := ""
  system : String := ""
  images : List ImageRef := []
  tags : List String := []

/-- Embedding of the `BedrockKnowledgeDocument` dataclass.  The relevance
score is a float that is only ever stored and echoed, never computed with, so
it is modelled as a rational. -/
structure BedrockKnowledgeDocument where
  content : String
  content_length : Nat
  source : String
  score : Rat

/-- Embedding of the `BedrockInferenceParams` dataclass. -/
structure BedrockInferenceParams where
  prompt : Option String := none
  temperature : Option Rat := none
  top_p : Option Rat := none
  max_tokens : Option Nat := none
  refinement_instructions : Option String := none
  generated_work_items : Option (List Json) := none

/-- One entry of `response["output"]["message"]["content"]`; the text field
is read as `item.get("text", "")`. -/
structure ContentItem where
  text : Option String := none

/-- The parts of a Bedrock Converse API response the parsers read:
`output.message.content` (missing collapses to `[]`, the `.get` default) and
`usage.outputTokens` (missing collapses to `0`, the `.get` default). -/
structure ModelResponse where
  content : List ContentItem := []
  outputTokens : Nat := 0

/-- Module-level constant `MAX_OUTPUT_TOKENS` (bedrock_service.py line 12). -/
def MAX_OUTPUT_TOKENS : Nat := 10240

/-- The distinct exceptions raised by the response parsers, in source order:
invalid `output.message.content` structure, empty response text, output-token
ceiling breach, unparsable or falsy or key-missing JSON, and the `TypeError`
that `len()` would raise while logging a non-sized `workItems` value. -/
inductive BedrockError where
  | invalidMessageStructure
  | noTextContent
  | tokenLimit
  | invalidJson
  | typeError
deriving DecidableEq

/-! ### Type-hierarchy resolver -/

/-- Embedding of `BedrockService._get_expected_child_work_item_type`
(bedrock_service.py lines 96-116). -/
def get_expected_child_work_item_type (work_item : WorkItem) (plural : Bool) : Option String :=
  let work_item_type := work_item.workItemType
  let process_template := work_item.processTemplate
  if work_item_type = "Epic" then
    some (if plural then "Features" else "Feature")
  else if work_item_type = "Feature" then
    (if process_template = "Scrum" then
      some (if plural then "Product Backlog Items" else "Product Backlog Item")
    else
      some (if plural then "User Stories" else "User Story"))
  else if work_item_type ∈ (["User Story", "Product Backlog Item"] : List String) then
    some (if plural then "Tasks" else "Task")
  else
    none

/-- The child-type table exactly as the specification states it (section 4.1
of spec.md), written independently of the source for comparison. -/
def expected_child_type_table (workItemType processTemplate : String) (plural : Bool) :
    Option String :=
  match workItemType with
  | "Epic" => some (if plural then "Features" else "Feature")
  | "Feature" =>
    if processTemplate = "Scrum" then
      some (if plural then "Product Backlog Items" else "Product Backlog Item")
    else some (if plural then "User Stories" else "User Story")
  | "User Story" => some (if plural then "Tasks" else "Task")
  | "Product Backlog Item" => some (if plural then "Tasks" else "Task")
  | _ => none

/-! ### Knowledge retrieval -/

/-- A structured search filter sent to the knowledge base: an equality
condition `(equals key value)` or a conjunction `andAll` of conditions. -/
inductive KBFilter where
  | equalsCond (key value : String)
  | andAll (conds : List KBFilter)

/-- Embedding of `BedrockService._build_work_item_breakdown_filters`
(bedrock_service.py lines 158-176).  `none` models the empty dict returned
when no condition applies; `some f` models `        «filter»: f        ` (braces
elided). -/
def build_work_item_breakdown_filters (work_item : WorkItem) : Option KBFilter :=
  let filter_conditions : List KBFilter :=
    (if work_item.workItemType ≠ "" then
      [KBFilter.equalsCond "workItemType" work_item.workItemType] else []) ++
    (if work_item.areaPath ≠ "" then
      [KBFilter.equalsCond "areaPath" work_item.areaPath] else []) ++
    (if work_item.businessUnit ≠ "" then
      [KBFilter.equalsCond "businessUnit" work_item.businessUnit] else []) ++
    (if work_item.system ≠ "" then
      [KBFilter.equalsCond "system" work_item.system] else [])
  if 2 ≤ filter_conditions.length then
    some (KBFilter.andAll filter_conditions)
  else
    match filter_conditions with
    | [c] => some c
    | _ => none

/-- One raw entry of `response["retrievalResults"]` from the retrieval
client; each field collapses to its `.get` default when missing. -/
structure RawRetrievalResult where
  contentText : Option String := none
  s3Uri : Option String := none
  score : Option Rat := none

/-- Loop body of `BedrockService._process_knowledge_results` at a given
enumeration index. -/
def process_one_knowledge_result (idx : Nat) (result : RawRetrievalResult) :
    BedrockKnowledgeDocument :=
  let content := result.contentText.getD ""
  { content := content
    content_length := content.length
    source := result.s3Uri.getD ("Document " ++ toString (idx + 1))
    score := result.score.getD 0 }

def process_knowledge_results_from (idx : Nat) :
    List RawRetrievalResult → List BedrockKnowledgeDocument
  | [] => []
  | r :: rest => process_one_knowledge_result idx r :: process_knowledge_results_from (idx + 1) rest

/-- Embedding of `BedrockService._process_knowledge_results`
(bedrock_service.py lines 211-235): documents are built in order with
`enumerate`, storing the untruncated content text. -/
def process_knowledge_results (results : List RawRetrievalResult) :
    List BedrockKnowledgeDocument :=
  process_knowledge_results_from 0 results

/-- Embedding of `BedrockService.retrieve_knowledge_context`
(bedrock_service.py lines 178-209).  The vector-search collaborator
(`bedrock_agent_client.retrieve`) is passed as an oracle returning either the
raw results or the exception it raised; the whole body runs inside
`try/except Exception`, which converts any error into an empty document
list. -/
def retrieve_knowledge_context
    (retrieve : String → Option KBFilter → Except String (List RawRetrievalResult))
    (query : String) (filters : Option KBFilter) : List BedrockKnowledgeDocument :=
  match retrieve query filters with
  | .error _ => []
  | .ok results => process_knowledge_results results

/-! ### Prompt knowledge sections (the consumption sites of document
content) -/

/-- The `knowledge_section` local of
`BedrockService._build_work_item_evaluation_user_prompt` (bedrock_service.py
lines 358-360): each document contributes the first 500 characters of its
content. -/
def evaluation_prompt_knowledge_section (knowledge_context : List BedrockKnowledgeDocument) :
    String :=
  if knowledge_context.isEmpty then ""
  else
    String.intercalate "\n"
      (knowledge_context.map (fun doc => "- " ++ pySliceTo doc.content 500 ++ "..."))

/-- The `knowledge_section` local of
`BedrockService._build_work_item_generation_user_prompt` (bedrock_service.py
lines 695-697): each document contributes the first 500 characters of its
content. -/
def generation_prompt_knowledge_section (knowledge_context : List BedrockKnowledgeDocument) :
    String :=
  if knowledge_context.isEmpty then ""
  else
    String.intercalate "\n"
      (knowledge_context.map (fun doc => "- " ++ pySliceTo doc.content 500 ++ "..."))

/-- The `knowledge_section` local of
`BedrockService._build_work_item_refinement_user_prompt` (bedrock_service.py
lines 810-814): each document contributes the first 300 characters of its
content, under a "Reference Context" header. -/
def refinement_prompt_knowledge_section (knowledge_context : List BedrockKnowledgeDocument) :
    String :=
  if knowledge_context.isEmpty then ""
  else
    "\n\nReference Context:\n" ++
      String.intercalate "\n"
        (knowledge_context.map (fun doc => "- " ++ pySliceTo doc.content 300 ++ "..."))

/-- The per-document preview line the specification describes: the first
`n` characters of the document content in a `- ...` bullet. -/
def preview_line (n : Nat) (doc : BedrockKnowledgeDocument) : String :=
  "- " ++ pySliceTo doc.content n ++ "..."

/-! ### Inference configuration -/

/-- Python truthiness of an optional float: `None` and `0.0` are falsy. -/
def pyTruthyRat (o : Option Rat) : Bool :=
  match o with
  | none => false
  | some q => q != 0

/-- Python truthiness of an optional int: `None` and `0` are falsy. -/
def pyTruthyNat (o : Option Nat) : Bool :=
  match o with
  | none => false
  | some n => n != 0

/-- The `inferenceConfig` dict sent with a generation request. -/
structure InferenceConfig where
  maxTokens : Nat
  temperature : Option Rat := none
  topP : Option Rat := none
deriving DecidableEq

/-- Embedding of the inference-config construction in
`BedrockService._invoke_model_for_work_item_generation` (bedrock_service.py
lines 531-542): `maxTokens` is `params.max_tokens or MAX_OUTPUT_TOKENS`, and
exactly one of temperature / topP is added, testing each parameter with
Python truthiness. -/
def build_generation_inference_config (params : BedrockInferenceParams) : InferenceConfig :=
  let base : InferenceConfig :=
    { maxTokens := if pyTruthyNat params.max_tokens then params.max_tokens.getD 0
                   else MAX_OUTPUT_TOKENS }
  if pyTruthyRat params.temperature then
    { base with temperature := params.temperature }
  else if pyTruthyRat params.top_p then
    { base with topP := params.top_p }
  else
    { base with temperature := some (1 / 2) }

/-! ### Response parsers -/

/-- Embedding of `BedrockService._parse_work_items` (bedrock_service.py lines
841-896).  The success value is the parsed `workItems` JSON value.  The
`typeError` branch models the `TypeError` that `len(parsed_response["workItems"])`
raises inside the final logging call when `workItems` is not a sized value. -/
def parse_work_items (response : ModelResponse) : Except BedrockError Json :=
  match response.content with
  | [] => .error .invalidMessageStructure
  | first :: _ =>
    let content := first.text.getD ""
    let output_tokens := response.outputTokens
    if content = "" then .error .noTextContent
    else if output_tokens ≠ 0 ∧ MAX_OUTPUT_TOKENS ≤ output_tokens then .error .tokenLimit
    else
      match safe_json_parse content with
      | none => .error .invalidJson
      | some parsed =>
        if jsonPyFalsy parsed || !(parsed.objContains "workItems") then .error .invalidJson
        else
          match parsed.objGet "workItems" with
          | none => .error .invalidJson
          | some work_items =>
            match jsonPyLen work_items with
            | none => .error .typeError
            | some _ => .ok work_items

/-- Embedding of the `BedrockWorkItemGenerationResponse` dataclass; the
parsed `workItems` value is kept as JSON. -/
structure BedrockWorkItemGenerationResponse where
  work_items : Json
  documents : List BedrockKnowledgeDocument

/-- Embedding of the tail of `BedrockService.generate_work_items`
(bedrock_service.py lines 464-501) after knowledge retrieval and model
invocation, whose outcomes are supplied by the collaborator oracles: parse
the model response and, only on success, assemble the generation response;
any parsing exception propagates to the caller. -/
def generate_work_items_result (response : ModelResponse)
    (documents : List BedrockKnowledgeDocument) :
    Except BedrockError BedrockWorkItemGenerationResponse :=
  match parse_work_items response with
  | .error e => .error e
  | .ok work_items => .ok { work_items := work_items, documents := documents }

/-- Embedding of the `BedrockWorkItemEvaluationResponse` dataclass.  The
`passed` and `comment` fields hold whatever JSON values the model returned
(Python performs no type check on them). -/
structure BedrockWorkItemEvaluationResponse where
  passed : Json
  comment : Option Json
  sources : List String

/-- Embedding of `BedrockService._parse_work_item_evaluation`
(bedrock_service.py lines 432-460): after the structural checks and the
lenient JSON parse, a falsy parse result (None or an empty dict) raises, and
otherwise the result is assembled with `parsed_response.get("pass", False)`
and `parsed_response.get("comment")` — a present, non-empty object that
merely lacks the "pass" key does NOT raise. -/
def parse_work_item_evaluation (response : ModelResponse)
    (knowledge_context : List BedrockKnowledgeDocument) :
    Except BedrockError BedrockWorkItemEvaluationResponse :=
  match response.content with
  | [] => .error .invalidMessageStructure
  | first :: _ =>
    let content := first.text.getD ""
    if content = "" then .error .noTextContent
    else
      match safe_json_parse content with
      | none => .error .invalidJson
      | some parsed =>
        if jsonPyFalsy parsed then .error .invalidJson
        else
          .ok { passed := (parsed.objGet "pass").getD (Json.bool false)
                comment := parsed.objGet "comment"
                sources := knowledge_context.map (fun doc => doc.source) }

/-! ### Image pipeline -/

/-- Value of a standard base64 alphabet character. -/
def b64CharVal (c : Char) : Option Nat :=
  if 'A' ≤ c ∧ c ≤ 'Z' then some (c.toNat - 'A'.toNat)
  else if 'a' ≤ c ∧ c ≤ 'z' then some (c.toNat - 'a'.toNat + 26)
  else if '0' ≤ c ∧ c ≤ '9' then some (c.toNat - '0'.toNat + 52)
  else if c = '+' then some 62
  else if c = '/' then some 63
  else none

/-- Convert a run of 6-bit base64 values to bytes: full 4-character chunks
give 3 bytes, a trailing pair gives 1 byte and a trailing triple 2 bytes. -/
def b64DecodeChunks : List Nat → List Nat
  | a :: b :: c :: d :: rest =>
    (a * 4 + b / 16) :: ((b % 16) * 16 + c / 4) :: ((c % 4) * 64 + d) :: b64DecodeChunks rest
  | [a, b] => [a * 4 + b / 16]
  | [a, b, c] => [a * 4 + b / 16, (b % 16) * 16 + c / 4]
  | _ => []

/-- Embedding of Python `base64.b64decode` in its default mode: characters
outside the alphabet are discarded, data stops at the first padding sign, and
incorrect padding (a data length that is 1 mod 4, or data plus padding not a
multiple of 4) raises, modelled as `none`. -/
def b64decode (s : String) : Option (List Nat) :=
  let cs := s.data.filter (fun c => (b64CharVal c).isSome || c == '=')
  let dataChars := cs.takeWhile (fun c => c != '=')
  let padCount := cs.length - dataChars.length
  if dataChars.length % 4 = 1 then none
  else if (dataChars.length + padCount) % 4 ≠ 0 then none
  else some (b64DecodeChunks (dataChars.filterMap b64CharVal))

/-- Embedding of `BedrockService._is_image_size_valid` (bedrock_service.py
lines 946-958): the base64 text length is converted to a decoded byte count
(`len * 3 / 4`, true division), scaled to megabytes and compared against the
configured ceiling.  The Python float arithmetic here is exact for every
realistic length (integers below 2^53), so rationals model it faithfully. -/
def is_image_size_valid (max_image_size : Nat) (base64_data : String) : Bool :=
  let size_in_bytes : Rat := (base64_data.length : Rat) * 3 / 4
  let size_in_mb : Rat := size_in_bytes / (1024 * 1024)
  if size_in_mb > (max_image_size : Rat) then false else true

/-- Embedding of `BedrockService._detect_image_format` (bedrock_service.py
lines 960-990): sniff JPEG / PNG / WebP / GIF signatures, defaulting to
jpeg. -/
def detect_image_format (buffer : List Nat) : String :=
  if 4 ≤ buffer.length then
    match buffer with
    | b0 :: b1 :: b2 :: b3 :: _ =>
      if b0 = 0xFF ∧ b1 = 0xD8 ∧ b2 = 0xFF then "jpeg"
      else if b0 = 0x89 ∧ b1 = 0x50 ∧ b2 = 0x4E ∧ b3 = 0x47 then "png"
      else if b0 = 0x52 ∧ b1 = 0x49 ∧ b2 = 0x46 ∧ b3 = 0x46 ∧ 12 ≤ buffer.length ∧
          buffer[8]? = some 0x57 ∧ buffer[9]? = some 0x45 ∧
          buffer[10]? = some 0x42 ∧ buffer[11]? = some 0x50 then "webp"
      else if b0 = 0x47 ∧ b1 = 0x49 ∧ b2 = 0x46 ∧ b3 = 0x38 then "gif"
      else "jpeg"
    | _ => "jpeg"
  else "jpeg"

/-- One block of the multi-modal content array sent to the model: the text
prompt or an image with its sniffed format and decoded bytes. -/
inductive ContentBlock where
  | text (s : String)
  | image (format : String) (bytes : List Nat)

/-- Per-image loop body of `BedrockService._build_model_content`: the Azure
fetch collaborator is an oracle from URL to optional base64 payload (`none`
covers both a `None` return and a raised fetch error, which the per-image
`try/except` swallows).  A falsy payload or an oversized or undecodable one
is skipped; an accepted payload becomes an image block with its sniffed
format. -/
def process_one_image (max_image_size : Nat) (fetch_image : String → Option String)
    (image : ImageRef) : Option ContentBlock :=
  match fetch_image image.url with
  | none => none
  | some image_data =>
    if image_data != "" && is_image_size_valid max_image_size image_data then
      match b64decode image_data with
      | none => none
      | some image_bytes => some (ContentBlock.image (detect_image_format image_bytes) image_bytes)
    else none

/-- Embedding of `BedrockService._build_model_content` (bedrock_service.py
lines 900-944): the text prompt always comes first; only the first
`max_images` images are processed, each one independently fetched, validated
and appended, with any per-image failure skipped. -/
def build_model_content (max_images max_image_size : Nat)
    (fetch_image : String → Option String) (work_item : WorkItem) (user_prompt : String) :
    List ContentBlock :=
  let content : List ContentBlock := [ContentBlock.text user_prompt]
  if work_item.images.isEmpty then content
  else
    let images_to_process := work_item.images.take max_images
    content ++ images_to_process.filterMap (process_one_image max_image_size fetch_image)

/-! ### The evaluate_work_item tool -/

/-- Lowercase hex rendering of a code unit for a `\uXXXX` escape. -/
def toHex4 (n : Nat) : String :=
  let hexDigit (k : Nat) : Char :=
    if k < 10 then Char.ofNat ('0'.toNat + k) else Char.ofNat ('a'.toNat + (k - 10))
  String.mk [hexDigit (n / 4096 % 16), hexDigit (n / 256 % 16), hexDigit (n / 16 % 16),
    hexDigit (n % 16)]

/-- Escape one character as Python `json.dumps` does with its default
`ensure_ascii=True`: the two-character escapes for quote, backslash and
common control characters, `\uXXXX` for other control or non-ASCII
characters, and surrogate pairs above the BMP. -/
def pyJsonEscapeChar (c : Char) : String :=
  if c = '"' then "\\\""
  else if c = '\\' then "\\\\"
  else if c = '\n' then "\\n"
  else if c = '\r' then "\\r"
  else if c = '\t' then "\\t"
  else if c = '\x08' then "\\b"
  else if c = '\x0C' then "\\f"
  else if c.toNat < 0x20 ∨ 0x7E < c.toNat then
    (if c.toNat < 0x10000 then "\\u" ++ toHex4 c.toNat
     else
       let m := c.toNat - 0x10000
       "\\u" ++ toHex4 (0xD800 + m / 0x400) ++ "\\u" ++ toHex4 (0xDC00 + m % 0x400))
  else String.singleton c

/-- Python `json.dumps` of a string value. -/
def pyJsonDumpStr (s : String) : String :=
  "\"" ++ String.join (s.data.map pyJsonEscapeChar) ++ "\""

mutual

/-- Python `json.dumps` of a JSON value with default separators.  A numeric
value is rendered by its lexeme (the float repr round-trip is not modelled;
no claim inspects this output). -/
def pyJsonDumps : Json → String
  | .null => "null"
  | .bool b => if b then "true" else "false"
  | .num lexeme => lexeme
  | .str s => pyJsonDumpStr s
  | .arr es => "[" ++ pyJsonDumpsElems es ++ "]"
  | .obj ms => "\x7b" ++ pyJsonDumpsMembers ms ++ "\x7d"

/-- Comma-separated rendering of array elements. -/
def pyJsonDumpsElems : List Json → String
  | [] => ""
  | [e] => pyJsonDumps e
  | e :: rest => pyJsonDumps e ++ ", " ++ pyJsonDumpsElems rest

/-- Comma-separated rendering of object members. -/
def pyJsonDumpsMembers : List (String × Json) → String
  | [] => ""
  | [(k, v)] => pyJsonDumpStr k ++ ": " ++ pyJsonDumps v
  | (k, v) :: rest => pyJsonDumpStr k ++ ": " ++ pyJsonDumps v ++ ", " ++ pyJsonDumpsMembers rest

end

/-- The `json.dumps` call in the success branch of the `evaluate_work_item`
tool (bedrock_tools.py lines 36-40), over the dict with keys "pass",
"comment" and "sources" in that insertion order. -/
def dumps_evaluation_result (result : BedrockWorkItemEvaluationResponse) : String :=
  "\x7b\"pass\": " ++ pyJsonDumps result.passed ++
    ", \"comment\": " ++ (match result.comment with
      | none => "null"
      | some j => pyJsonDumps j) ++
    ", \"sources\": [" ++ String.intercalate ", " (result.sources.map pyJsonDumpStr) ++ "]\x7d"

/-- Outcome of the awaited `bedrock_service.evaluate_work_item` call, as seen
by the tool: either the evaluation response or the exception message caught
by the tool's `try/except`. -/
inductive ServiceOutcome where
  | success (result : BedrockWorkItemEvaluationResponse)
  | failure (message : String)

/-- The already-evaluated notice the tool returns for a tagged work item. -/
def task_genie_notice (workItemType : String) : String :=
  "The " ++ workItemType ++
    " has already been previously evaluated by Task Genie. Please remove the `Task Genie` tag to re-evaluate this " ++
    workItemType ++ "."

/-- Embedding of the `evaluate_work_item` tool (bedrock_tools.py lines
20-42).  The evaluation service is an oracle argument: when the work item
carries the "Task Genie" tag the tool returns the notice before the service
is ever consulted, so the oracle's outcome cannot influence the result. -/
def evaluate_work_item_tool (service : ServiceOutcome) (work_item : WorkItem) : String :=
  if "Task Genie" ∈ work_item.tags then
    task_genie_notice work_item.workItemType
  else
    match service with
    | .success result => dumps_evaluation_result result
    | .failure message => "Error evaluating work item: " ++ message

/-! ### Concrete fixtures used by the claim theorems -/

/-- A knowledge document with 350 characters of content, long enough to
separate a 300-character preview from a 500-character one. -/
def longKnowledgeDoc : BedrockKnowledgeDocument :=
  { content := String.mk (List.replicate 350 'a')
    content_length := 350
    source := "s3://kb/doc"
    score := 0 }

/-- A work item carrying five image references, two more than the default
image cap. -/
def fiveImageWorkItem : WorkItem :=
  { images := [{ url := "u1" }, { url := "u2" }, { url := "u3" }, { url := "u4" },
               { url := "u5" }] }

/-- Number of image blocks in a content array. -/
def countImageBlocks (blocks : List ContentBlock) : Nat :=
  blocks.countP (fun b => match b with | .image _ _ => true | _ => false)

/-! ### Helper lemmas -/
theorem pyFindAux_of_not_mem {c : Char} :
    ∀ {l : List Char}, (∀ x ∈ l, x ≠ c) → ∀ n, pyFindAux c l n = none
  | [], _, _ => rfl
  | x :: xs, h, n => by
    have hx : x ≠ c := h x (List.mem_cons_self x xs)
    simp only [pyFindAux, if_neg hx]
    exact pyFindAux_of_not_mem (fun y hy => h y (List.mem_cons_of_mem x hy)) (n + 1)

theorem pyFindAux_of_isFirstOcc {c : Char} :
    ∀ {l : List Char} {i : Nat}, isFirstOcc l c i → ∀ n, pyFindAux c l n = some (n + i)
  | [], i, h, n => by
    rcases h with ⟨h1, -⟩
    simp at h1
  | x :: xs, 0, h, n => by
    rcases h with ⟨h1, -⟩
    simp only [List.getElem?_cons_zero, Option.some.injEq] at h1
    simp [pyFindAux, h1]
  | x :: xs, i + 1, h, n => by
    rcases h with ⟨h1, h2⟩
    have hx : x ≠ c := by
      have := h2 0 (Nat.succ_pos i)
      simpa using this
    have htail : isFirstOcc xs c i := by
      refine ⟨by simpa using h1, fun k hk => ?_⟩
      have := h2 (k + 1) (Nat.succ_lt_succ hk)
      simpa using this
    simp only [pyFindAux, if_neg hx]
    rw [pyFindAux_of_isFirstOcc htail (n + 1)]
    congr 1
    omega

theorem pyRFindAux_of_not_mem {c : Char} :
    ∀ {l : List Char}, (∀ x ∈ l, x ≠ c) → ∀ n acc, pyRFindAux c l n acc = acc
  | [], _, _, _ => rfl
  | x :: xs, h, n, acc => by
    have hx : x ≠ c := h x (List.mem_cons_self x xs)
    simp only [pyRFindAux, if_neg hx]
    exact pyRFindAux_of_not_mem (fun y hy => h y (List.mem_cons_of_mem x hy)) (n + 1) acc

theorem pyRFindAux_of_isLastOcc {c : Char} :
    ∀ {l : List Char} {j : Nat}, isLastOcc l c j → ∀ n acc, pyRFindAux c l n acc = some (n + j)
  | [], j, h, n, acc => by
    rcases h with ⟨h1, -⟩
    simp at h1
  | x :: xs, 0, h, n, acc => by
    rcases h with ⟨h1, h2⟩
    simp only [List.getElem?_cons_zero, Option.some.injEq] at h1
    have htail : ∀ y ∈ xs, y ≠ c := by
      intro y hy
      rcases List.getElem_of_mem hy with ⟨k, hk, hyk⟩
      have := h2 (k + 1) (by simpa using Nat.succ_lt_succ hk) (Nat.succ_pos k)
      simp only [List.getElem?_cons_succ] at this
      rw [List.getElem?_eq_getElem hk, hyk] at this
      intro hyc
      exact this (by rw [hyc])
    simp only [pyRFindAux, if_pos h1]
    rw [pyRFindAux_of_not_mem htail (n + 1) (some n)]
    simp
  | x :: xs, j + 1, h, n, acc => by
    rcases h with ⟨h1, h2⟩
    have htail : isLastOcc xs c j := by
      refine ⟨by simpa using h1, fun k hk hjk => ?_⟩
      have := h2 (k + 1) (by simpa using Nat.succ_lt_succ hk) (Nat.succ_lt_succ hjk)
      simpa using this
    simp only [pyRFindAux]
    rw [pyRFindAux_of_isLastOcc htail (n + 1) _]
    congr 1
    omega

theorem pyFind_of_isFirstOcc {s : String} {i : Nat} (h : isFirstOcc s.data '\x7b' i) :
    pyFind s '\x7b' = some i := by
  rw [pyFind, pyFindAux_of_isFirstOcc h 0]
  congr 1
  omega

theorem pyRFind_of_isLastOcc {s : String} {j : Nat} (h : isLastOcc s.data '\x7d' j) :
    pyRFind s '\x7d' = some j := by
  rw [pyRFind, pyRFindAux_of_isLastOcc h 0 none]
  congr 1
  omega

theorem pyTruthyRat_isSome {o : Option Rat} (h : pyTruthyRat o = true) : o.isSome := by
  cases o with
  | none => simp [pyTruthyRat] at h
  | some q => rfl

theorem objGet_eq_none_of_not_contains {j : Json} {key : String}
    (h : j.objContains key = false) : j.objGet key = none := by
  cases j <;> simp only [Json.objGet]
  case obj ms =>
    simp only [Json.objContains, List.any_eq_false] at h
    rw [List.find?_eq_none.mpr, Option.map_none']
    intro p hp
    exact h p (List.mem_reverse.mp hp)

theorem process_knowledge_results_from_map_content (results : List RawRetrievalResult) :
    ∀ idx : Nat, (process_knowledge_results_from idx results).map (fun d => d.content) =
      results.map (fun r => r.contentText.getD "") := by
  induction results with
  | nil => intro idx; rfl
  | cons r rest ih =>
    intro idx
    simp [process_knowledge_results_from, process_one_knowledge_result, ih (idx + 1)]

theorem is_image_size_valid_eq (max_image_size : Nat) (base64_data : String) :
    is_image_size_valid max_image_size base64_data =
      !decide (4 * 1024 * 1024 * max_image_size < 3 * base64_data.length) := by
  unfold is_image_size_valid
  have key : (((base64_data.length : Rat) * 3 / 4) / (1024 * 1024) > (max_image_size : Rat)) ↔
      (4 * 1024 * 1024 * max_image_size < 3 * base64_data.length) := by
    rw [gt_iff_lt, lt_div_iff₀ (by norm_num : (0 : Rat) < 1024 * 1024),
      lt_div_iff₀ (by norm_num : (0 : Rat) < 4)]
    rw [show ((max_image_size : Rat) * (1024 * 1024) * 4) =
        ((4 * 1024 * 1024 * max_image_size : Nat) : Rat) by push_cast; ring,
      show ((base64_data.length : Rat) * 3) = ((3 * base64_data.length : Nat) : Rat) by
        push_cast; ring]
    exact Nat.cast_lt
  by_cases h : 4 * 1024 * 1024 * max_image_size < 3 * base64_data.length
  · rw [if_pos (key.mpr h)]
    simp [h]
  · rw [if_neg (fun hc => h (key.mp hc))]
    simp [h]

/-! ### Claim theorems -/

/-- C1: for every work item dictionary and plural flag, the expected-child-type
function returns Feature(s) for an Epic; Product Backlog Item(s) for a Feature
whose process template equals Scrum and User Story/Stories for any other
template; Task(s) for a User Story or Product Backlog Item; and nothing for
every other type, including Task and unrecognized types, regardless of the
plural flag. -/
theorem spec_c1 (wi : WorkItem) (plural : Bool) :
    get_expected_child_work_item_type wi plural =
      expected_child_type_table wi.workItemType wi.processTemplate plural ∧
    (wi.workItemType ∉ (["Epic", "Feature", "User Story", "Product Backlog Item"] :
        List String) →
      get_expected_child_work_item_type wi plural = none) := by
  constructor
  · by_cases h1 : wi.workItemType = "Epic"
    · simp [get_expected_child_work_item_type, expected_child_type_table, h1]
    · by_cases h2 : wi.workItemType = "Feature"
      · simp [get_expected_child_work_item_type, expected_child_type_table, h2]
      · by_cases h3 : wi.workItemType = "User Story"
        · simp [get_expected_child_work_item_type, expected_child_type_table, h3]
        · by_cases h4 : wi.workItemType = "Product Backlog Item"
          · simp [get_expected_child_work_item_type, expected_child_type_table, h4]
          · simp [get_expected_child_work_item_type, expected_child_type_table, h1, h2, h3, h4]
  · intro hnot
    simp only [List.mem_cons, List.mem_singleton, not_or] at hnot
    obtain ⟨h1, h2, h3, h4⟩ := hnot
    simp [get_expected_child_work_item_type, h1, h2, h3, h4]

/-- Witness for C1 at two concrete work items: a Task has no expected child
type, and a Scrum Feature expects Product Backlog Items. -/
theorem spec_c1_witness :
    get_expected_child_work_item_type { workItemType := "Task" } true = none ∧
    get_expected_child_work_item_type
      { workItemType := "Feature", processTemplate := "Scrum" } true =
      some "Product Backlog Items" :=
  ⟨(spec_c1 { workItemType := "Task" } true).2 (by decide),
    (spec_c1 { workItemType := "Feature", processTemplate := "Scrum" } true).1.trans rfl⟩

/-- C2 counterexample: a response with no message content but output-token
usage 10240 (at the ceiling) is rejected with the structural error raised by
the earlier check, not with the token-limit error the claim promises for
every such response. -/
theorem spec_c2_counterexample :
    MAX_OUTPUT_TOKENS ≤ 10240 ∧
    parse_work_items { content := [], outputTokens := 10240 } =
      Except.error BedrockError.invalidMessageStructure ∧
    parse_work_items { content := [], outputTokens := 10240 } ≠
      Except.error BedrockError.tokenLimit := by
  refine ⟨by decide, rfl, ?_⟩
  intro h
  rw [show parse_work_items { content := [], outputTokens := 10240 } =
    Except.error BedrockError.invalidMessageStructure from rfl] at h
  exact absurd (Except.error.inj h) (by decide)

/-- C2 (amended): for every model response whose reported output-token usage
is at least the configured maximum (10240), generation parsing raises a fatal
error — the token-limit error whenever the response has non-empty text
content, the structural checks running first — and `generate_work_items`
returns no work items (no partial list). -/
theorem spec_c2 (response : ModelResponse) (h : MAX_OUTPUT_TOKENS ≤ response.outputTokens) :
    (∀ work_items : Json, parse_work_items response ≠ .ok work_items) ∧
    (∀ (documents : List BedrockKnowledgeDocument)
      (result : BedrockWorkItemGenerationResponse),
      generate_work_items_result response documents ≠ .ok result) ∧
    (∀ (first : ContentItem) (rest : List ContentItem), response.content = first :: rest →
      first.text.getD "" ≠ "" → parse_work_items response = .error .tokenLimit) := by
  have h0 : response.outputTokens ≠ 0 := by
    have h10 : (10240 : Nat) ≤ response.outputTokens := h
    omega
  have hmaster : ∃ e, parse_work_items response = .error e := by
    rcases hc : response.content with _ | ⟨first, rest⟩
    · exact ⟨.invalidMessageStructure, by simp [parse_work_items, hc]⟩
    · by_cases hct : first.text.getD "" = ""
      · exact ⟨.noTextContent, by simp [parse_work_items, hc, hct]⟩
      · exact ⟨.tokenLimit, by simp [parse_work_items, hc, hct, h0, h]⟩
  obtain ⟨e, he⟩ := hmaster
  refine ⟨?_, ?_, ?_⟩
  · intro work_items
    rw [he]
    simp
  · intro documents result
    unfold generate_work_items_result
    rw [he]
    simp
  · intro first rest hcontent hne
    simp [parse_work_items, hcontent, hne, h0, h]

/-- Witness for C2 at a concrete response with text "x" and output-token
usage exactly at the ceiling. -/
theorem spec_c2_witness :
    parse_work_items { content := [{ text := some "x" }], outputTokens := 10240 } =
      Except.error BedrockError.tokenLimit :=
  (spec_c2 { content := [{ text := some "x" }], outputTokens := 10240 } (by decide)).2.2
    { text := some "x" } [] rfl (by decide)

/-- C3 counterexample: an evaluation response whose text parses to a
non-empty JSON object lacking the "pass" key does not raise — it returns an
evaluation result with `passed` defaulted to false. -/
theorem spec_c3_counterexample :
    safe_json_parse "\x7b\"comment\": \"add detail\"\x7d" =
      some (Json.obj [("comment", Json.str "add detail")]) ∧
    Json.objContains (Json.obj [("comment", Json.str "add detail")]) "pass" = false ∧
    parse_work_item_evaluation
      { content := [{ text := some "\x7b\"comment\": \"add detail\"\x7d" }], outputTokens := 0 }
      [] =
      Except.ok { passed := Json.bool false, comment := some (Json.str "add detail"),
                  sources := [] } :=
  ⟨rfl, rfl, rfl⟩

/-- C3 (amended): generation parsing raises a fatal error whenever the parsed
JSON lacks the "workItems" key; evaluation parsing, however, raises only when
the parsed object is falsy (empty), and otherwise returns a result whose
`passed` field defaults to false when the "pass" key is missing. -/
theorem spec_c3 :
    (∀ (t : String) (rest : List ContentItem) (toks : Nat) (parsed : Json),
      safe_json_parse t = some parsed → toks < MAX_OUTPUT_TOKENS →
      parsed.objContains "workItems" = false →
      parse_work_items { content := { text := some t } :: rest, outputTokens := toks } =
        .error .invalidJson) ∧
    (∀ (t : String) (rest : List ContentItem) (toks : Nat) (parsed : Json)
      (docs : List BedrockKnowledgeDocument),
      safe_json_parse t = some parsed → jsonPyFalsy parsed = false →
      parsed.objContains "pass" = false →
      parse_work_item_evaluation { content := { text := some t } :: rest, outputTokens := toks }
        docs =
        .ok { passed := Json.bool false, comment := parsed.objGet "comment",
              sources := docs.map (fun doc => doc.source) }) ∧
    (∀ (t : String) (rest : List ContentItem) (toks : Nat)
      (docs : List BedrockKnowledgeDocument),
      safe_json_parse t = some (Json.obj []) →
      parse_work_item_evaluation { content := { text := some t } :: rest, outputTokens := toks }
        docs = .error .invalidJson) := by
  have hne : ∀ (t : String) (parsed : Json), safe_json_parse t = some parsed → t ≠ "" := by
    intro t parsed hp h0
    rw [h0, show safe_json_parse "" = none from rfl] at hp
    exact Option.noConfusion hp
  refine ⟨?_, ?_, ?_⟩
  · intro t rest toks parsed hp hlt hnc
    have hcond : ¬(toks ≠ 0 ∧ MAX_OUTPUT_TOKENS ≤ toks) := fun hand =>
      absurd hand.2 (Nat.not_le.mpr hlt)
    simp [parse_work_items, hne t parsed hp, hcond, hp, hnc]
  · intro t rest toks parsed docs hp hfalsy hnc
    have hget : parsed.objGet "pass" = none := objGet_eq_none_of_not_contains hnc
    simp [parse_work_item_evaluation, hne t parsed hp, hp, hfalsy, hget]
  · intro t rest toks docs hp
    simp [parse_work_item_evaluation, hne t (Json.obj []) hp, hp, jsonPyFalsy]

/-- Witness for C3 at concrete responses: generation text lacking "workItems"
raises, evaluation text lacking "pass" returns a defaulted result, and an
empty JSON object raises in evaluation. -/
theorem spec_c3_witness :
    parse_work_items
      { content := [{ text := some "\x7b\"items\": []\x7d" }], outputTokens := 100 } =
      Except.error BedrockError.invalidJson ∧
    parse_work_item_evaluation
      { content := [{ text := some "\x7b\"comment\": \"x\"\x7d" }], outputTokens := 0 } [] =
      Except.ok { passed := Json.bool false, comment := some (Json.str "x"), sources := [] } ∧
    parse_work_item_evaluation
      { content := [{ text := some " \x7b \x7d " }], outputTokens := 0 } [] =
      Except.error BedrockError.invalidJson :=
  ⟨spec_c3.1 "\x7b\"items\": []\x7d" [] 100 (Json.obj [("items", Json.arr [])]) rfl (by decide)
      rfl,
    spec_c3.2.1 "\x7b\"comment\": \"x\"\x7d" [] 0 (Json.obj [("comment", Json.str "x")]) []
      rfl rfl rfl,
    spec_c3.2.2 " \x7b \x7d " [] 0 [] rfl⟩

/-- C4: the lenient JSON parser fails when the input has no opening brace, no
closing brace, or its last closing brace at or before its first opening
brace; otherwise it runs `json.loads` on the substring from the first opening
brace to the last closing brace inclusive, so prose-wrapped well-formed
objects are returned and unbalanced substrings fail. -/
theorem spec_c4 :
    (∀ s : String, (∀ c ∈ s.data, c ≠ '\x7b') → safe_json_parse s = none) ∧
    (∀ s : String, (∀ c ∈ s.data, c ≠ '\x7d') → safe_json_parse s = none) ∧
    (∀ (s : String) (i j : Nat), isFirstOcc s.data '\x7b' i → isLastOcc s.data '\x7d' j →
      j ≤ i → safe_json_parse s = none) ∧
    (∀ (s : String) (i j : Nat), isFirstOcc s.data '\x7b' i → isLastOcc s.data '\x7d' j →
      i < j → safe_json_parse s = json_loads (pySlice s i (j + 1))) ∧
    safe_json_parse "Sure! Here is the JSON: \x7b\"pass\": true\x7d Hope that helps." =
      some (Json.obj [("pass", Json.bool true)]) ∧
    safe_json_parse "no json here" = none ∧
    safe_json_parse "text \x7b\"a\": [1, 2\x7d oops" = none := by
  refine ⟨?_, ?_, ?_, ?_, rfl, rfl, rfl⟩
  · intro s h
    unfold safe_json_parse
    rw [show pyFind s '\x7b' = none from pyFindAux_of_not_mem h 0]
  · intro s h
    unfold safe_json_parse
    rw [show pyRFind s '\x7d' = none from pyRFindAux_of_not_mem h 0 none]
    cases pyFind s '\x7b' <;> rfl
  · intro s i j hf hl hji
    unfold safe_json_parse
    rw [pyFind_of_isFirstOcc hf, pyRFind_of_isLastOcc hl]
    simp [hji]
  · intro s i j hf hl hij
    unfold safe_json_parse
    rw [pyFind_of_isFirstOcc hf, pyRFind_of_isLastOcc hl]
    simp [Nat.not_le.mpr hij]

/-- Witness for C4 at a concrete input whose first opening brace is at index
1 and last closing brace at index 2. -/
theorem spec_c4_witness :
    safe_json_parse "x\x7b\x7dy" = json_loads (pySlice "x\x7b\x7dy" 1 3) ∧
    json_loads (pySlice "x\x7b\x7dy" 1 3) = some (Json.obj []) :=
  ⟨spec_c4.2.2.2.1 "x\x7b\x7dy" 1 2 (by constructor <;> decide) (by constructor <;> decide)
      (by decide),
    rfl⟩

/-- C5 counterexample: a given temperature of 0.0 is Python-falsy, so it is
not sent — the default 0.5 is sent instead, and a given top-p wins over a
given zero temperature. -/
theorem spec_c5_counterexample :
    (build_generation_inference_config { temperature := some 0 }).temperature = some (1 / 2) ∧
    (build_generation_inference_config { temperature := some 0 }).temperature ≠ some 0 ∧
    (build_generation_inference_config
      { temperature := some 0, top_p := some (3 / 10) }).temperature = none ∧
    (build_generation_inference_config
      { temperature := some 0, top_p := some (3 / 10) }).topP = some (3 / 10) := by
  have h0 : pyTruthyRat (some (0 : Rat)) = false := by simp [pyTruthyRat]
  have h310 : pyTruthyRat (some ((3 : Rat) / 10)) = true := by
    simp only [pyTruthyRat, bne_iff_ne, ne_eq, decide_eq_true_eq]
    norm_num
  refine ⟨?_, ?_, ?_, ?_⟩
  · simp [build_generation_inference_config, pyTruthyRat, h0]
  · simp only [build_generation_inference_config, pyTruthyRat, h0, Bool.false_eq_true, if_false,
      bne_self_eq_false, ne_eq, Option.some.injEq]
    norm_num
  · simp [build_generation_inference_config, pyTruthyRat, h0, h310]
  · simp [build_generation_inference_config, pyTruthyRat, h0, h310]

/-- C5 (amended): the generation inference configuration always contains
exactly one of temperature and top-p; a truthy (given and non-zero)
temperature is sent and takes precedence, otherwise a truthy top-p is sent,
and otherwise temperature 0.5 is sent (a given zero value counts as absent,
by Python truthiness). -/
theorem spec_c5 (params : BedrockInferenceParams) :
    (((build_generation_inference_config params).temperature.isSome ∧
        (build_generation_inference_config params).topP = none) ∨
      ((build_generation_inference_config params).temperature = none ∧
        (build_generation_inference_config params).topP.isSome)) ∧
    (pyTruthyRat params.temperature = true →
      (build_generation_inference_config params).temperature = params.temperature ∧
      (build_generation_inference_config params).topP = none) ∧
    (pyTruthyRat params.temperature = false → pyTruthyRat params.top_p = true →
      (build_generation_inference_config params).topP = params.top_p ∧
      (build_generation_inference_config params).temperature = none) ∧
    (pyTruthyRat params.temperature = false → pyTruthyRat params.top_p = false →
      (build_generation_inference_config params).temperature = some (1 / 2) ∧
      (build_generation_inference_config params).topP = none) := by
  refine ⟨?_, fun ht => ?_, fun ht hp => ?_, fun ht hp => ?_⟩
  · cases ht : pyTruthyRat params.temperature with
    | true =>
      refine Or.inl ⟨?_, by simp [build_generation_inference_config, ht]⟩
      simp only [build_generation_inference_config, ht, if_true]
      exact pyTruthyRat_isSome ht
    | false =>
      cases hp : pyTruthyRat params.top_p with
      | true =>
        refine Or.inr ⟨by simp [build_generation_inference_config, ht, hp], ?_⟩
        simp only [build_generation_inference_config, ht, hp, Bool.false_eq_true, if_false,
          if_true]
        exact pyTruthyRat_isSome hp
      | false =>
        exact Or.inl ⟨by simp [build_generation_inference_config, ht, hp],
          by simp [build_generation_inference_config, ht, hp]⟩
  · exact ⟨by simp [build_generation_inference_config, ht],
      by simp [build_generation_inference_config, ht]⟩
  · exact ⟨by simp [build_generation_inference_config, ht, hp],
      by simp [build_generation_inference_config, ht, hp]⟩
  · exact ⟨by simp [build_generation_inference_config, ht, hp],
      by simp [build_generation_inference_config, ht, hp]⟩

/-- Witness for C5 at concrete parameters giving only a non-zero top-p. -/
theorem spec_c5_witness :
    (build_generation_inference_config { top_p := some (7 / 10) }).topP = some (7 / 10) ∧
    (build_generation_inference_config { top_p := some (7 / 10) }).temperature = none := by
  have h7 : pyTruthyRat (some ((7 : Rat) / 10)) = true := by
    simp only [pyTruthyRat, bne_iff_ne, ne_eq, decide_eq_true_eq]
    norm_num
  exact (spec_c5 { top_p := some (7 / 10) }).2.2.1 rfl h7

set_option maxRecDepth 40000 in
/-- C6 counterexample: the refinement prompt embeds only the first 300
characters of a document's content, not the first 500 the claim states for
every consumption site. -/
theorem spec_c6_counterexample :
    refinement_prompt_knowledge_section [longKnowledgeDoc] =
      "\n\nReference Context:\n" ++ ("- " ++ String.mk (List.replicate 300 'a') ++ "...") ∧
    refinement_prompt_knowledge_section [longKnowledgeDoc] ≠
      "\n\nReference Context:\n" ++ preview_line 500 longKnowledgeDoc := by
  constructor
  · rfl
  · decide

/-- C6 (amended): document previews embedded into the evaluation and
generation user prompts are the first 500 characters of each document's
content, the refinement user prompt embeds the first 300 characters under a
Reference Context header, and the stored knowledge-document content is never
truncated. -/
theorem spec_c6 :
    (∀ docs : List BedrockKnowledgeDocument,
      evaluation_prompt_knowledge_section docs =
        (if docs.isEmpty then "" else String.intercalate "\n" (docs.map (preview_line 500)))) ∧
    (∀ docs : List BedrockKnowledgeDocument,
      generation_prompt_knowledge_section docs =
        (if docs.isEmpty then "" else String.intercalate "\n" (docs.map (preview_line 500)))) ∧
    (∀ docs : List BedrockKnowledgeDocument,
      refinement_prompt_knowledge_section docs =
        (if docs.isEmpty then ""
         else "\n\nReference Context:\n" ++
           String.intercalate "\n" (docs.map (preview_line 300)))) ∧
    (∀ results : List RawRetrievalResult,
      (process_knowledge_results results).map (fun d => d.content) =
        results.map (fun r => r.contentText.getD "")) :=
  ⟨fun _ => rfl, fun _ => rfl, fun _ => rfl,
    fun results => process_knowledge_results_from_map_content results 0⟩

/-- C7: the content builder always emits the text prompt as the first block
followed exactly by the accepted image blocks taken from the first
`max_images` images, so the block count is one plus the number of accepted
images; in particular, with five images, a cap of three and every fetch
accepted, the output is one text block plus exactly three image blocks. -/
theorem spec_c7 :
    (∀ (max_images max_image_size : Nat) (fetch_image : String → Option String)
      (work_item : WorkItem) (user_prompt : String),
      ∃ image_blocks : List ContentBlock,
        build_model_content max_images max_image_size fetch_image work_item user_prompt =
          ContentBlock.text user_prompt :: image_blocks ∧
        image_blocks = (work_item.images.take max_images).filterMap
          (process_one_image max_image_size fetch_image) ∧
        image_blocks.length ≤ max_images ∧
        image_blocks.length ≤ work_item.images.length ∧
        (∀ b ∈ image_blocks, ∃ format bytes, b = ContentBlock.image format bytes)) ∧
    (build_model_content 3 5 (fun _ => some "/9j/4AAQ") fiveImageWorkItem "prompt").length =
      4 ∧
    (build_model_content 3 5 (fun _ => some "/9j/4AAQ") fiveImageWorkItem "prompt").take 1 =
      [ContentBlock.text "prompt"] ∧
    countImageBlocks (build_model_content 3 5 (fun _ => some "/9j/4AAQ") fiveImageWorkItem
      "prompt") = 3 := by
  have huniv : ∀ (max_images max_image_size : Nat) (fetch_image : String → Option String)
      (work_item : WorkItem) (user_prompt : String),
      ∃ image_blocks : List ContentBlock,
        build_model_content max_images max_image_size fetch_image work_item user_prompt =
          ContentBlock.text user_prompt :: image_blocks ∧
        image_blocks = (work_item.images.take max_images).filterMap
          (process_one_image max_image_size fetch_image) ∧
        image_blocks.length ≤ max_images ∧
        image_blocks.length ≤ work_item.images.length ∧
        (∀ b ∈ image_blocks, ∃ format bytes, b = ContentBlock.image format bytes) := by
    intro max_images max_image_size fetch_image work_item user_prompt
    by_cases himg : work_item.images.isEmpty
    · have hnil : work_item.images = [] := by simpa using himg
      refine ⟨[], ?_, by simp [hnil], by simp, by simp, by simp⟩
      simp [build_model_content, himg]
    · refine ⟨(work_item.images.take max_images).filterMap
        (process_one_image max_image_size fetch_image), ?_, rfl, ?_, ?_, ?_⟩
      · simp [build_model_content, himg]
      · exact le_trans (List.length_filterMap_le _ _) (by rw [List.length_take]; omega)
      · exact le_trans (List.length_filterMap_le _ _) (by rw [List.length_take]; omega)
      · intro b hb
        rcases List.mem_filterMap.mp hb with ⟨img, hmem, himg2⟩
        unfold process_one_image at himg2
        rcases hf : fetch_image img.url with _ | data
        · rw [hf] at himg2
          exact absurd himg2 (by simp)
        · rw [hf] at himg2
          dsimp only at himg2
          by_cases hcond : (data != "" && is_image_size_valid max_image_size data) = true
          · rw [if_pos hcond] at himg2
            rcases hdec : b64decode data with _ | bytes
            · rw [hdec] at himg2
              exact absurd himg2 (by simp)
            · rw [hdec] at himg2
              exact ⟨detect_image_format bytes, bytes, (Option.some.inj himg2).symm⟩
          · rw [if_neg hcond] at himg2
            exact absurd himg2 (by simp)
  have hval : is_image_size_valid 5 "/9j/4AAQ" = true := by
    rw [is_image_size_valid_eq]
    decide
  have hone : ∀ img : ImageRef, process_one_image 5 (fun _ => some "/9j/4AAQ") img =
      some (ContentBlock.image "jpeg" [255, 216, 255, 224, 0, 16]) := by
    intro img
    have hcond : (("/9j/4AAQ" != "") && is_image_size_valid 5 "/9j/4AAQ") = true := by
      rw [hval]
      rfl
    simp only [process_one_image, hcond, if_true]
    rfl
  refine ⟨huniv, ?_, ?_, ?_⟩
  · simp [build_model_content, fiveImageWorkItem, hone]
  · simp [build_model_content, fiveImageWorkItem, hone]
  · simp [build_model_content, fiveImageWorkItem, hone, countImageBlocks]

/-- C8: the breakdown knowledge-search filter contains an equality condition
exactly for each of the four fields (work-item type, area path, business
unit, system) that is present and non-empty; two or more conditions are
combined with andAll, a single condition stands alone, and with none the
filter is omitted entirely. -/
theorem spec_c8 (wi : WorkItem) :
    build_work_item_breakdown_filters wi =
      (let conds :=
        ((([("workItemType", wi.workItemType), ("areaPath", wi.areaPath),
            ("businessUnit", wi.businessUnit), ("system", wi.system)] :
              List (String × String)).filter (fun p => p.2 != "")).map
          (fun p => KBFilter.equalsCond p.1 p.2));
      if 2 ≤ conds.length then some (KBFilter.andAll conds)
      else
        match conds with
        | [c] => some c
        | _ => none) := by
  by_cases h1 : wi.workItemType = "" <;> by_cases h2 : wi.areaPath = "" <;>
    by_cases h3 : wi.businessUnit = "" <;> by_cases h4 : wi.system = "" <;>
      simp [build_work_item_breakdown_filters, h1, h2, h3, h4]

/-- C9: whenever the knowledge-retrieval collaborator raises an error,
`retrieve_knowledge_context` returns the empty document list instead of
propagating the error (its return type carries no failure at all, so a
retrieval failure can never abort the enclosing evaluate or generate
operation). -/
theorem spec_c9 (retrieve : String → Option KBFilter → Except String (List RawRetrievalResult))
    (query : String) (filters : Option KBFilter) (e : String)
    (h : retrieve query filters = .error e) :
    retrieve_knowledge_context retrieve query filters = [] := by
  unfold retrieve_knowledge_context
  rw [h]

/-- Witness for C9 at a collaborator that always raises. -/
theorem spec_c9_witness :
    retrieve_knowledge_context (fun _ _ => .error "knowledge base unavailable") "query" none =
      [] :=
  spec_c9 _ "query" none "knowledge base unavailable" rfl

/-- C10: for every work item tagged "Task Genie", the evaluate_work_item tool
returns the already-evaluated notice, and the result is independent of the
evaluation-service outcome — the service (and with it knowledge retrieval,
the model call, and the JSON result) is never consulted. -/
theorem spec_c10 (work_item : WorkItem) (h : "Task Genie" ∈ work_item.tags) :
    (∀ service : ServiceOutcome,
      evaluate_work_item_tool service work_item = task_genie_notice work_item.workItemType) ∧
    (∀ s1 s2 : ServiceOutcome,
      evaluate_work_item_tool s1 work_item = evaluate_work_item_tool s2 work_item) := by
  have hmain : ∀ service : ServiceOutcome,
      evaluate_work_item_tool service work_item = task_genie_notice work_item.workItemType := by
    intro service
    unfold evaluate_work_item_tool
    rw [if_pos h]
  exact ⟨hmain, fun s1 s2 => by rw [hmain s1, hmain s2]⟩

/-- Witness for C10 at a tagged User Story and a failing service oracle. -/
theorem spec_c10_witness :
    evaluate_work_item_tool (ServiceOutcome.failure "boom")
      { workItemType := "User Story", tags := ["Ready", "Task Genie"] } =
      task_genie_notice "User Story" :=
  (spec_c10 { workItemType := "User Story", tags := ["Ready", "Task Genie"] } (by simp)).1 _
